import Mathlib

/-!
Shallow embedding of the Medalyze front end (`src/frontend/streamlit_app.py`).

The program is a single-file Streamlit app:
* Tab 1 (lines 44-86): a batch upload loop over the user-selected documents.
  Each document is posted to the backend; on HTTP/parse success the JSON
  result, tagged with the document's file name, is appended to
  `all_analysis_results`; on any exception an error is displayed and the loop
  continues.  After the loop the session key `all_analysis_results` is
  assigned wholesale.
* Tab 2 (lines 91-158): an aggregation loop over the stored results.  Each
  result's `analysis_id` is used to fetch a matrix; missing id, fetch failure
  or an empty matrix skips the item with a warning/error; surviving matrices
  are vertically stacked (`np.vstack`), row labels are concatenated in the
  same order, column labels and a row-wise mean column are derived, and a
  DataFrame is built.

Numeric scores travel through the app as floating-point numbers; they are
modelled here as exact rationals (`ℚ`).  Network calls are modelled as
oracle functions passed in as parameters.
-/

set_option autoImplicit false

namespace Medalyze

/-- A user-selected file in tab 1: `doc.name` and the bytes read by
`doc.read()` (the base64 encoding of the content is irrelevant to the
claims, so the content is kept abstract as a string). -/
structure Document where
  name : String
  content : String
  deriving Repr, DecidableEq

/-- The part of the backend's JSON upload response that the app reads
later: `result.get("analysis_id", "")` yields `""` both when the field is
absent and when it is empty, so a missing identifier is modelled as the
empty string. -/
structure UploadPayload where
  analysis_id : String
  deriving Repr, DecidableEq

/-- One entry of `all_analysis_results`: the backend response with
`result["file_name"] = doc.name` written into it (only the fields the app
reads afterwards are kept). -/
structure AnalysisResult where
  analysis_id : String
  file_name : String
  deriving Repr, DecidableEq

/-- The error message displayed by `st.error(f"Failed to upload ...")` at
line 83. -/
def uploadErrMsg (fileName err : String) : String :=
  "Failed to upload " ++ fileName ++ ": " ++ err

/-- The tab-1 loop (lines 55-83): for each document call the transport
(`requests.post` + `raise_for_status` + `response.json()`, modelled by the
oracle `tr`; `Except.error` covers HTTP failure, network failure and an
unparseable body).  On success the payload is tagged with the document's
name and appended to the result list; on failure an error message is
recorded and the loop continues with the next document.  Returns the
result list and the error messages, each in encounter order. -/
def processBatch (tr : Document → Except String UploadPayload) :
    List Document → List AnalysisResult × List String
  | [] => ([], [])
  | d :: ds =>
    let rest := processBatch tr ds
    match tr d with
    | Except.ok p => ({ analysis_id := p.analysis_id, file_name := d.name } :: rest.1, rest.2)
    | Except.error e => (rest.1, uploadErrMsg d.name e :: rest.2)

/-- Whether the transport call for a document succeeds. -/
def uploadOk (tr : Document → Except String UploadPayload) (d : Document) : Bool :=
  match tr d with
  | Except.ok _ => true
  | Except.error _ => false

/-- Line 85: `st.session_state["all_analysis_results"] = all_analysis_results`.
The session key is modelled as `Option (List AnalysisResult)` (`none` =
key absent); the assignment overwrites whatever was there with exactly the
results of this run. -/
def updateSession (_prev : Option (List AnalysisResult))
    (tr : Document → Except String UploadPayload) (docs : List Document) :
    Option (List AnalysisResult) :=
  some (processBatch tr docs).1

theorem processBatch_results_eq (tr : Document → Except String UploadPayload)
    (docs : List Document) :
    (processBatch tr docs).1 =
      docs.filterMap (fun d =>
        match tr d with
        | Except.ok p => some { analysis_id := p.analysis_id, file_name := d.name }
        | Except.error _ => none) := by
  induction docs with
  | nil => rfl
  | cons d ds ih =>
    simp only [processBatch, List.filterMap_cons]
    cases h : tr d <;> simp [h, ih]

theorem processBatch_errors_eq (tr : Document → Except String UploadPayload)
    (docs : List Document) :
    (processBatch tr docs).2 =
      docs.filterMap (fun d =>
        match tr d with
        | Except.ok _ => none
        | Except.error e => some (uploadErrMsg d.name e)) := by
  induction docs with
  | nil => rfl
  | cons d ds ih =>
    simp only [processBatch, List.filterMap_cons]
    cases h : tr d <;> simp [h, ih]

theorem processBatch_names (tr : Document → Except String UploadPayload)
    (docs : List Document) :
    ((processBatch tr docs).1.map AnalysisResult.file_name) =
      (docs.filter (fun d => uploadOk tr d)).map Document.name := by
  induction docs with
  | nil => rfl
  | cons d ds ih =>
    simp only [processBatch, List.filter_cons, uploadOk]
    cases h : tr d <;> simp [h, ih, uploadOk]

theorem processBatch_length (tr : Document → Except String UploadPayload)
    (docs : List Document) :
    (processBatch tr docs).1.length = (docs.filter (fun d => uploadOk tr d)).length := by
  have h := congrArg List.length (processBatch_names tr docs)
  simpa using h

/-! Tab 2: the aggregation loop (lines 99-137) and the renderer
(lines 139-151). -/

/-- The part of the backend's JSON fetch response that tab 2 reads:
`analyzed_data.get("matrix", [])` and `analyzed_data.get("row_labels", ...)`.
`row_labels := none` models the key being absent (only then does `get` fall
back to the synthesized default); `some ls` models the key being present
with value `ls`, even when `ls` is empty or of the wrong length. -/
structure FetchedAnalysis where
  matrix : List (List ℚ)
  row_labels : Option (List String)
  deriving Repr, DecidableEq

/-- Total element count of a matrix: `np.array(matrix).size`, the test at
line 127 (`if matrix.size == 0: continue`). -/
def matrixSize (m : List (List ℚ)) : Nat :=
  (m.map List.length).sum

/-- Column count of a matrix: `shape[1]` of the (rectangular) array, i.e.
the length of its first row. -/
def colCount (m : List (List ℚ)) : Nat :=
  match m with
  | [] => 0
  | r :: _ => r.length

/-- A matrix is rectangular when every row has the common column count
(`np.array` only builds a 2-D numeric array out of such input). -/
def Rectangular (m : List (List ℚ)) : Prop :=
  ∀ r ∈ m, r.length = colCount m

instance (m : List (List ℚ)) : Decidable (Rectangular m) := by
  unfold Rectangular; infer_instance

/-- Line 131: the row labels contributed by one fetched result —
`analyzed_data.get("row_labels", [f"{result['file_name']} {i+1}" for i in
range(matrix.shape[0])])`.  Provided labels are used verbatim; only when
the key is absent are labels synthesized from the file name, one per row. -/
def labelsFor (fileName : String) (d : FetchedAnalysis) : List String :=
  match d.row_labels with
  | some ls => ls
  | none => (List.range d.matrix.length).map (fun i => fileName ++ " " ++ toString (i + 1))

/-- The per-item messages emitted inside the tab-2 loop: the warning at
line 106 (missing analysis id), the warning at line 128 (empty matrix) and
the error at line 133 (fetch failure). -/
inductive ItemLog where
  | warnNoAnalysisId (fileName : String)
  | warnEmptyMatrix (fileName : String)
  | errorFetchFailed (fileName : String) (err : String)
  deriving Repr, DecidableEq

/-- The tab-2 loop body, summarised per result: `some (file_name, data)`
when the result survives (non-empty `analysis_id`, successful fetch,
non-empty matrix), `none` when it is skipped. -/
def usableData (fetch : String → Except String FetchedAnalysis)
    (r : AnalysisResult) : Option (String × FetchedAnalysis) :=
  if r.analysis_id = "" then none
  else
    match fetch r.analysis_id with
    | Except.error _ => none
    | Except.ok d => if matrixSize d.matrix = 0 then none else some (r.file_name, d)

/-- The tab-2 loop (lines 102-133): walk the stored results; a result with
empty `analysis_id` is skipped with a warning; otherwise the matrix is
fetched (`requests.post` + `raise_for_status` + `json()`, modelled by the
oracle `fetch`); a fetch failure logs an error and skips; an empty matrix
logs a warning and skips; otherwise the matrix is appended to
`all_matrices` and the item's row labels are appended to `row_labels`.
Returns `(all_matrices, row_labels, logs)` in encounter order. -/
def collectMatrices (fetch : String → Except String FetchedAnalysis) :
    List AnalysisResult → List (List (List ℚ)) × List String × List ItemLog
  | [] => ([], [], [])
  | r :: rs =>
    let rest := collectMatrices fetch rs
    if r.analysis_id = "" then
      (rest.1, rest.2.1, ItemLog.warnNoAnalysisId r.file_name :: rest.2.2)
    else
      match fetch r.analysis_id with
      | Except.error e => (rest.1, rest.2.1, ItemLog.errorFetchFailed r.file_name e :: rest.2.2)
      | Except.ok d =>
        if matrixSize d.matrix = 0 then
          (rest.1, rest.2.1, ItemLog.warnEmptyMatrix r.file_name :: rest.2.2)
        else
          (d.matrix :: rest.1, labelsFor r.file_name d ++ rest.2.1, rest.2.2)

/-- The two conditions that stop the visualization step: line 136
(`st.error("No valid analysis data available to plot."); st.stop()`) and
the `ValueError` raised by `np.vstack` at line 139 when the input arrays
disagree on column count. -/
inductive AggError where
  | noData
  | columnMismatch
  deriving Repr, DecidableEq

/-- Line 139, `np.vstack(all_matrices)`: requires every input array to
have the same column count and concatenates their rows in order; on a
mismatch it raises (modelled as `AggError.columnMismatch`).  `np.vstack`
of an empty list also raises; the app never reaches that case because of
the line-135 guard. -/
def vstack (ms : List (List (List ℚ))) : Except AggError (List (List ℚ)) :=
  match ms with
  | [] => Except.error AggError.noData
  | m :: rest =>
    if rest.all (fun m2 => colCount m2 = colCount m) then Except.ok (m :: rest).flatten
    else Except.error AggError.columnMismatch

/-- Lines 102-139 as one function: run the collection loop; if no matrix
survived, stop with the "no data" error (line 135-137); otherwise stack
the matrices.  On success returns the combined matrix, the concatenated
row labels and the per-item logs accumulated along the way. -/
def aggregate (fetch : String → Except String FetchedAnalysis)
    (results : List AnalysisResult) :
    Except AggError (List (List ℚ) × List String × List ItemLog) :=
  if (collectMatrices fetch results).1.isEmpty then Except.error AggError.noData
  else
    match vstack (collectMatrices fetch results).1 with
    | Except.error e => Except.error e
    | Except.ok m =>
      Except.ok (m, (collectMatrices fetch results).2.1, (collectMatrices fetch results).2.2)

/-- Lines 144-146: the fixed list `["Criterion A", ..., "Criterion D"]` is
replaced by `[f"Criterion {i+1}" ...]` only when `n_criteria > 4`. -/
def colLabels (nCriteria : Nat) : List String :=
  if nCriteria > 4 then
    (List.range nCriteria).map (fun i => "Criterion " ++ toString (i + 1))
  else
    ["Criterion A", "Criterion B", "Criterion C", "Criterion D"]

/-- Line 141, `combined_matrix.mean(axis=1)`: each row is summed and
divided by the array's column count `shape[1]`. -/
def overallScores (m : List (List ℚ)) : List ℚ :=
  m.map (fun r => r.sum / (colCount m : ℚ))

/-- The score table of lines 149-150: column labels, row labels, the
numeric matrix and the derived overall-score column. -/
structure ScoreTable where
  cols : List String
  index : List String
  data : List (List ℚ)
  overall : List ℚ
  deriving Repr, DecidableEq

/-- Lines 140-150: `pd.DataFrame(combined_matrix, columns=col_labels,
index=row_labels)` raises a shape mismatch unless the label lists match
the matrix dimensions; on success the `Overall Score` column is added. -/
def buildScoreTable (m : List (List ℚ)) (rowLabels : List String) :
    Except String ScoreTable :=
  if rowLabels.length = m.length ∧ (colLabels (colCount m)).length = colCount m then
    Except.ok { cols := colLabels (colCount m), index := rowLabels, data := m,
                overall := overallScores m }
  else
    Except.error "Shape of passed values does not match the implied indices"

theorem collectMatrices_matrices_eq (fetch : String → Except String FetchedAnalysis)
    (results : List AnalysisResult) :
    (collectMatrices fetch results).1 =
      (results.filterMap (usableData fetch)).map (fun p => p.2.matrix) := by
  induction results with
  | nil => rfl
  | cons r rs ih =>
    simp only [collectMatrices, usableData, List.filterMap_cons]
    by_cases hid : r.analysis_id = ""
    · simp [hid, ih]
    · simp only [hid, if_false]
      cases h : fetch r.analysis_id with
      | error e => simp [ih]
      | ok d =>
        by_cases hsz : matrixSize d.matrix = 0
        · simp [hsz, ih]
        · simp [hsz, ih]

theorem collectMatrices_labels_eq (fetch : String → Except String FetchedAnalysis)
    (results : List AnalysisResult) :
    (collectMatrices fetch results).2.1 =
      ((results.filterMap (usableData fetch)).map (fun p => labelsFor p.1 p.2)).flatten := by
  induction results with
  | nil => rfl
  | cons r rs ih =>
    simp only [collectMatrices, usableData, List.filterMap_cons]
    by_cases hid : r.analysis_id = ""
    · simp [hid, ih]
    · simp only [hid, if_false]
      cases h : fetch r.analysis_id with
      | error e => simp [ih]
      | ok d =>
        by_cases hsz : matrixSize d.matrix = 0
        · simp [hsz, ih]
        · simp [hsz, ih]

theorem collectMatrices_log_count (fetch : String → Except String FetchedAnalysis)
    (results : List AnalysisResult) :
    (collectMatrices fetch results).2.2.length +
        (results.filterMap (usableData fetch)).length = results.length := by
  induction results with
  | nil => rfl
  | cons r rs ih =>
    simp only [collectMatrices, usableData, List.filterMap_cons]
    by_cases hid : r.analysis_id = ""
    · simp [hid, ih]
      all_goals omega
    · simp only [hid, if_false]
      cases h : fetch r.analysis_id with
      | error e =>
        simp [ih]
        all_goals omega
      | ok d =>
        by_cases hsz : matrixSize d.matrix = 0
        · simp [hsz, ih]
          all_goals omega
        · simp [hsz, ih]
          all_goals omega

theorem processBatch_total (tr : Document → Except String UploadPayload)
    (docs : List Document) :
    (processBatch tr docs).1.length + (processBatch tr docs).2.length = docs.length := by
  induction docs with
  | nil => rfl
  | cons d ds ih =>
    simp only [processBatch]
    cases h : tr d <;> simp [h] <;> omega

theorem collectMatrices_skip (fetch : String → Except String FetchedAnalysis)
    (r : AnalysisResult) (rs : List AnalysisResult)
    (h : usableData fetch r = none) :
    ∃ w, collectMatrices fetch (r :: rs) =
      ((collectMatrices fetch rs).1, (collectMatrices fetch rs).2.1,
        w :: (collectMatrices fetch rs).2.2) := by
  unfold usableData at h
  simp only [collectMatrices]
  by_cases hid : r.analysis_id = ""
  · exact ⟨ItemLog.warnNoAnalysisId r.file_name, by simp [hid]⟩
  · simp only [hid, if_false] at h ⊢
    cases hf : fetch r.analysis_id with
    | error e => exact ⟨ItemLog.errorFetchFailed r.file_name e, by simp⟩
    | ok d =>
      rw [hf] at h
      by_cases hsz : matrixSize d.matrix = 0
      · exact ⟨ItemLog.warnEmptyMatrix r.file_name, by simp [hsz]⟩
      · simp [hsz] at h

/-- C1: for every non-empty batch, the result list of the upload loop has
exactly one entry per document whose transport call succeeded, each tagged
with its source document's name, in the input's relative order; every
failing document contributes one reported error instead, and processing
never aborts early (results plus errors account for the whole batch). -/
theorem claim_C1 (tr : Document → Except String UploadPayload)
    (docs : List Document) (_hne : docs ≠ []) :
    (processBatch tr docs).1.length = (docs.filter (fun d => uploadOk tr d)).length ∧
    (processBatch tr docs).1.map AnalysisResult.file_name =
      (docs.filter (fun d => uploadOk tr d)).map Document.name ∧
    (processBatch tr docs).1 =
      docs.filterMap (fun d =>
        match tr d with
        | Except.ok p => some { analysis_id := p.analysis_id, file_name := d.name }
        | Except.error _ => none) ∧
    (processBatch tr docs).1.length + (processBatch tr docs).2.length = docs.length :=
  ⟨processBatch_length tr docs, processBatch_names tr docs,
    processBatch_results_eq tr docs, processBatch_total tr docs⟩

def trW1 : Document → Except String UploadPayload :=
  fun d => if d.name = "b.txt" then Except.error "timeout" else Except.ok { analysis_id := "id" }

def docsW1 : List Document :=
  [{ name := "a.txt", content := "u" }, { name := "b.txt", content := "v" },
   { name := "c.txt", content := "w" }]

theorem claim_C1_witness :
    (processBatch trW1 docsW1).1.length = (docsW1.filter (fun d => uploadOk trW1 d)).length ∧
    (processBatch trW1 docsW1).1.map AnalysisResult.file_name =
      (docsW1.filter (fun d => uploadOk trW1 d)).map Document.name ∧
    (processBatch trW1 docsW1).1 =
      docsW1.filterMap (fun d =>
        match trW1 d with
        | Except.ok p => some { analysis_id := p.analysis_id, file_name := d.name }
        | Except.error _ => none) ∧
    (processBatch trW1 docsW1).1.length + (processBatch trW1 docsW1).2.length = docsW1.length ∧
    (processBatch trW1 docsW1).1.map AnalysisResult.file_name = ["a.txt", "c.txt"] := by
  have h := claim_C1 trW1 docsW1 (by decide)
  exact ⟨h.1, h.2.1, h.2.2.1, h.2.2.2, by decide⟩

/-- C2: vertical stacking of two usable matrices with differing column
counts fails with the column-count mismatch error, and whenever stacking
succeeds the output is exactly the concatenation of the input rows —
nothing is truncated, padded or reshaped. -/
theorem claim_C2 :
    (∀ (ms : List (List (List ℚ))) (m1 m2 : List (List ℚ)), m1 ∈ ms → m2 ∈ ms →
      colCount m1 ≠ colCount m2 → vstack ms = Except.error AggError.columnMismatch) ∧
    (∀ (ms : List (List (List ℚ))) (m : List (List ℚ)),
      vstack ms = Except.ok m → m = ms.flatten) := by
  constructor
  · intro ms m1 m2 h1 h2 hne
    cases ms with
    | nil => cases h1
    | cons m rest =>
      unfold vstack
      by_cases hall : rest.all (fun m2 => colCount m2 = colCount m) = true
      · exfalso
        have key : ∀ x ∈ m :: rest, colCount x = colCount m := by
          intro x hx
          rcases List.mem_cons.mp hx with rfl | hx'
          · rfl
          · exact of_decide_eq_true (List.all_eq_true.mp hall x hx')
        exact hne ((key m1 h1).trans (key m2 h2).symm)
      · simp [hall]
  · intro ms m h
    cases ms with
    | nil => cases h
    | cons m0 rest =>
      unfold vstack at h
      by_cases hall : rest.all (fun m2 => colCount m2 = colCount m0) = true
      · simp only [hall, if_true] at h
        cases h
        rfl
      · simp [hall] at h

theorem claim_C2_witness :
    vstack [[[(1 : ℚ), 2]], [[(3 : ℚ)]]] = Except.error AggError.columnMismatch ∧
    [[(1 : ℚ), 2], [(3 : ℚ), 4]] =
      ([[[(1 : ℚ), 2]], [[(3 : ℚ), 4]]] : List (List (List ℚ))).flatten :=
  ⟨claim_C2.1 _ [[(1 : ℚ), 2]] [[(3 : ℚ)]] (by simp) (by simp) (by decide),
    claim_C2.2 [[[(1 : ℚ), 2]], [[(3 : ℚ), 4]]] _ (by rfl)⟩

/-- C3, counterexample to the claim as stated: a 3-column aggregated
matrix has criteria count at most 4, yet the code still produces the fixed
four-element label list, so the labels are not one per column. -/
theorem claim_C3_counterexample :
    colLabels 3 = ["Criterion A", "Criterion B", "Criterion C", "Criterion D"] ∧
    (colLabels 3).length ≠ 3 := by
  constructor
  · rfl
  · decide

/-- C3, amended: when the criteria count is at most 4 the labels are
always the fixed four-element list "Criterion A".."Criterion D" (one per
column only when the count is exactly 4); when the count exceeds 4 the
labels are "Criterion 1".."Criterion n", one per column. -/
theorem claim_C3_amended (n : Nat) :
    (n ≤ 4 → colLabels n = ["Criterion A", "Criterion B", "Criterion C", "Criterion D"]) ∧
    (4 < n → colLabels n = (List.range n).map (fun i => "Criterion " ++ toString (i + 1))) := by
  constructor
  · intro h
    unfold colLabels
    rw [if_neg (by omega)]
  · intro h
    unfold colLabels
    rw [if_pos (by omega)]

theorem claim_C3_witness :
    colLabels 4 = ["Criterion A", "Criterion B", "Criterion C", "Criterion D"] ∧
    colLabels 5 = ["Criterion 1", "Criterion 2", "Criterion 3", "Criterion 4", "Criterion 5"] := by
  refine ⟨(claim_C3_amended 4).1 (by decide), ?_⟩
  rw [(claim_C3_amended 5).2 (by decide)]
  rfl

/-- C4, counterexample to the claim as stated: an upload whose HTTP call
succeeds but whose parsed response lacks an analysis identifier is still
appended to the result list as a success (and no error is recorded),
rather than being treated as a transport-level failure. -/
theorem claim_C4_counterexample :
    processBatch (fun _ => Except.ok { analysis_id := "" })
        [{ name := "a.txt", content := "x" }] =
      ([{ analysis_id := "", file_name := "a.txt" }], []) := rfl

/-- C4, amended: a transport call reports a failure on non-success HTTP
status, network failure or an unparseable body (the error outcome of the
transport oracle), and such a document yields an error instead of a
result; but a parseable upload response lacking the analysis identifier is
recorded as a successful result, and the missing identifier only surfaces
later as a per-item warning in the aggregation loop. -/
theorem claim_C4_amended (tr : Document → Except String UploadPayload) (d : Document) :
    (∀ e, tr d = Except.error e → processBatch tr [d] = ([], [uploadErrMsg d.name e])) ∧
    (∀ p, tr d = Except.ok p →
      processBatch tr [d] = ([{ analysis_id := p.analysis_id, file_name := d.name }], [])) ∧
    (∀ fetch : String → Except String FetchedAnalysis,
      collectMatrices fetch [{ analysis_id := "", file_name := d.name }] =
        ([], [], [ItemLog.warnNoAnalysisId d.name])) := by
  refine ⟨?_, ?_, ?_⟩
  · intro e he
    simp [processBatch, he]
  · intro p hp
    simp [processBatch, hp]
  · intro fetch
    simp [collectMatrices]

theorem claim_C4_witness :
    processBatch (fun _ => Except.error "connection refused")
        [{ name := "a.txt", content := "x" }] =
      ([], [uploadErrMsg "a.txt" "connection refused"]) :=
  (claim_C4_amended (fun _ => Except.error "connection refused")
    { name := "a.txt", content := "x" }).1 "connection refused" rfl

/-- C5: for a rectangular aggregated matrix, each derived overall score is
the arithmetic mean of its own row's criterion values (the row sum divided
by the row's length, with no zero-filling of absent cells). -/
theorem claim_C5 (m : List (List ℚ)) (h : Rectangular m) :
    overallScores m = m.map (fun r => r.sum / (r.length : ℚ)) := by
  unfold overallScores
  apply List.map_congr_left
  intro r hr
  rw [h r hr]

theorem claim_C5_witness :
    Rectangular [[(0.8 : ℚ), 0.6, 1.0, 0.4]] ∧
    overallScores [[(0.8 : ℚ), 0.6, 1.0, 0.4]] = [0.7] := by
  constructor
  · decide
  · rw [claim_C5 [[(0.8 : ℚ), 0.6, 1.0, 0.4]] (by decide)]
    norm_num

/-- C6: when a non-empty stored result list yields zero usable matrices
(every result is skipped or fails its fetch), aggregation stops with the
explicit "no data" error, which is a distinct outcome from the
column-mismatch error and from the per-item skip logs that accompany a
partial aggregation. -/
theorem claim_C6 (fetch : String → Except String FetchedAnalysis)
    (results : List AnalysisResult) (_hne : results ≠ [])
    (h : ∀ r ∈ results, usableData fetch r = none) :
    aggregate fetch results = Except.error AggError.noData ∧
    AggError.noData ≠ AggError.columnMismatch := by
  have hm : (collectMatrices fetch results).1 = [] := by
    rw [collectMatrices_matrices_eq]
    rw [List.filterMap_eq_nil_iff.mpr h]
    rfl
  constructor
  · unfold aggregate
    rw [hm]
    rfl
  · decide

theorem claim_C6_witness :
    aggregate (fun _ => Except.error "service unavailable")
        [{ analysis_id := "", file_name := "a.txt" },
         { analysis_id := "id7", file_name := "b.txt" }] =
      Except.error AggError.noData ∧
    AggError.noData ≠ AggError.columnMismatch :=
  claim_C6 (fun _ => Except.error "service unavailable")
    [{ analysis_id := "", file_name := "a.txt" },
     { analysis_id := "id7", file_name := "b.txt" }]
    (by decide) (by decide)

/-- C7: the aggregation loop visits every stored result; the surviving
matrices are exactly those of the usable results in input order, the row
labels are the concatenation of the per-result labels in that same order,
every skipped result contributes exactly one log entry, and a single
unusable result is skipped with one logged warning/error while the rest of
the loop's output is unchanged — no per-item condition aborts the loop. -/
theorem claim_C7 (fetch : String → Except String FetchedAnalysis)
    (results : List AnalysisResult) :
    (collectMatrices fetch results).1 =
      (results.filterMap (usableData fetch)).map (fun p => p.2.matrix) ∧
    (collectMatrices fetch results).2.1 =
      ((results.filterMap (usableData fetch)).map (fun p => labelsFor p.1 p.2)).flatten ∧
    (collectMatrices fetch results).2.2.length +
      (results.filterMap (usableData fetch)).length = results.length ∧
    (∀ (r : AnalysisResult) (rs : List AnalysisResult), usableData fetch r = none →
      ∃ w, collectMatrices fetch (r :: rs) =
        ((collectMatrices fetch rs).1, (collectMatrices fetch rs).2.1,
          w :: (collectMatrices fetch rs).2.2)) :=
  ⟨collectMatrices_matrices_eq fetch results, collectMatrices_labels_eq fetch results,
    collectMatrices_log_count fetch results, fun r rs h => collectMatrices_skip fetch r rs h⟩

theorem claim_C7_witness :
    ∃ w, collectMatrices (fun _ => Except.error "timeout")
        [{ analysis_id := "id1", file_name := "a.txt" }] =
      (([] : List (List (List ℚ))), ([] : List String), [w]) :=
  (claim_C7 (fun _ => Except.error "timeout") []).2.2.2
    { analysis_id := "id1", file_name := "a.txt" } [] (by decide)

/-- C8: when a fetched payload has no row_labels key, the labels for its
matrix are synthesized as the file name followed by the 1-based row index,
one label per row in row order. -/
theorem claim_C8 (fileName : String) (d : FetchedAnalysis) (h : d.row_labels = none) :
    labelsFor fileName d =
      (List.range d.matrix.length).map (fun i => fileName ++ " " ++ toString (i + 1)) := by
  unfold labelsFor
  rw [h]

theorem claim_C8_witness :
    labelsFor "call1.txt" { matrix := [[(1 : ℚ)], [2], [3]], row_labels := none } =
      ["call1.txt 1", "call1.txt 2", "call1.txt 3"] := by
  rw [claim_C8 "call1.txt" { matrix := [[(1 : ℚ)], [2], [3]], row_labels := none } rfl]
  rfl

/-- C9: after a batch upload run, the session result set is exactly the
run's own results, regardless of whatever the session held before — it is
overwritten wholesale, never merged; in particular a run in which every
document fails leaves the empty result set. -/
theorem claim_C9 (prev prev' : Option (List AnalysisResult))
    (tr : Document → Except String UploadPayload) (docs : List Document) :
    updateSession prev tr docs = some (processBatch tr docs).1 ∧
    updateSession prev tr docs = updateSession prev' tr docs ∧
    ((∀ d ∈ docs, uploadOk tr d = false) → updateSession prev tr docs = some []) := by
  refine ⟨rfl, rfl, ?_⟩
  intro h
  unfold updateSession
  rw [processBatch_results_eq]
  rw [List.filterMap_eq_nil_iff.mpr ?_]
  intro d hd
  have hdo := h d hd
  unfold uploadOk at hdo
  cases htr : tr d with
  | ok p => rw [htr] at hdo; cases hdo
  | error e => simp [htr]

theorem claim_C9_witness :
    updateSession (some [{ analysis_id := "stale", file_name := "old.txt" }])
        (fun _ => Except.error "down") [{ name := "a.txt", content := "x" }] = some [] :=
  (claim_C9 (some [{ analysis_id := "stale", file_name := "old.txt" }]) none
    (fun _ => Except.error "down") [{ name := "a.txt", content := "x" }]).2.2 (by decide)

/-- C10: labels provided in the fetched payload are used verbatim whenever
the row_labels key is present, even when the list is empty or of the wrong
length; the aggregator itself can therefore succeed with a label count
that differs from the combined matrix's row count, and the mismatch only
surfaces when the score table is built, which fails on it. -/
theorem claim_C10 :
    (∀ (fileName : String) (m : List (List ℚ)) (ls : List String),
      labelsFor fileName { matrix := m, row_labels := some ls } = ls) ∧
    (∃ (fetch : String → Except String FetchedAnalysis) (results : List AnalysisResult)
      (m : List (List ℚ)) (ls : List String) (logs : List ItemLog),
      aggregate fetch results = Except.ok (m, ls, logs) ∧ ls.length ≠ m.length) ∧
    (∀ (m : List (List ℚ)) (rowLabels : List String), rowLabels.length ≠ m.length →
      ∃ e, buildScoreTable m rowLabels = Except.error e) := by
  refine ⟨fun _ _ _ => rfl, ?_, ?_⟩
  · refine ⟨fun _ => Except.ok { matrix := [[1], [2]], row_labels := some [] },
      [{ analysis_id := "id1", file_name := "a.txt" }], [[1], [2]], [], [], rfl, by decide⟩
  · intro m rowLabels h
    unfold buildScoreTable
    rw [if_neg (fun hc => h hc.1)]
    exact ⟨_, rfl⟩

theorem claim_C10_witness :
    labelsFor "a.txt" { matrix := [[(1 : ℚ)], [2]], row_labels := some [] } = [] ∧
    (∃ e, buildScoreTable [[(1 : ℚ)], [2]] [] = Except.error e) :=
  ⟨claim_C10.1 "a.txt" [[(1 : ℚ)], [2]] [],
    claim_C10.2.2 [[(1 : ℚ)], [2]] [] (by decide)⟩

end Medalyze
